import Mathlib

/-!
Verification of the streaming-relay and session-state core of the
AIChatApplication gateway (Flask app `src/backend/app.py` together with the
provider modules `src/llm/llm_mock.py`, `src/llm/llm_tinyllama.py`,
`src/llm/llm_llama3_1_8b.py`, `src/llm/llm_rag.py`).

The Python code is shallowly embedded: generators become Lean functions from
the finite list of upstream events to the finite list of yielded fragments,
the mutable chat-session dictionary becomes a function from session id to an
optional conversation, and the process-wide mode global becomes explicit
state passing.  External I/O (the HTTP library, `json.loads`) is passed in as
a parameter: a provider stream is a function of the list of lines or byte
chunks the HTTP response would deliver, and of an optional request error.
-/

/-! Python string primitives.  The Lean core versions (`String.trim`,
`String.isPrefixOf`, `String.splitOn`) are defined through substring
machinery that does not reduce in the kernel, so the Python operations used
by the sources are embedded as structural recursions over `List Char`. -/

/-- Python `str.strip()` with no argument: remove leading and trailing
whitespace. -/
def pyStrip (s : String) : String :=
  String.mk (((s.data.dropWhile Char.isWhitespace).reverse.dropWhile
    Char.isWhitespace).reverse)

/-- Python `s.startswith(pre)`. -/
def pyStartsWith (s pre : String) : Bool :=
  pre.data.isPrefixOf s.data

/-- Python `sep in s` (substring containment), on character lists. -/
def pyContainsList (sep : List Char) : List Char → Bool
  | [] => sep.isEmpty
  | c :: cs => sep.isPrefixOf (c :: cs) || pyContainsList sep cs

/-- Python `sep in s` (substring containment). -/
def pyContains (s sep : String) : Bool :=
  pyContainsList sep.data s.data

/-- The text before the first occurrence of `sep`, on character lists:
Python `s.split(sep)[0]` for a non-empty separator. -/
def pySplitFirstList (sep : List Char) : List Char → List Char
  | [] => []
  | c :: cs => if sep.isPrefixOf (c :: cs) then [] else c :: pySplitFirstList sep cs

/-- Python `s.split(sep)[0]` for a non-empty separator. -/
def pySplitFirst (s sep : String) : String :=
  String.mk (pySplitFirstList sep.data s.data)

/-- Python `s.split()` with no argument: split on runs of whitespace,
yielding no empty tokens.  `acc` holds the characters of the current token
in reverse. -/
def pySplitTokensAux : List Char → List Char → List String
  | [], acc => if acc.isEmpty then [] else [String.mk acc.reverse]
  | c :: cs, acc =>
    if c.isWhitespace then
      if acc.isEmpty then pySplitTokensAux cs []
      else String.mk acc.reverse :: pySplitTokensAux cs []
    else pySplitTokensAux cs (c :: acc)

/-- Python `s.split()` with no argument. -/
def pySplitTokens (s : String) : List String :=
  pySplitTokensAux s.data []

/-- A chat message, `{role, content}` as stored in `CHAT_SESSIONS`
(`src/backend/app.py` line 17). -/
structure Message where
  role : String
  content : String
deriving DecidableEq, Repr

/-- The in-memory session store `CHAT_SESSIONS = {}` of `src/backend/app.py`
line 17: a dictionary from session id to conversation, embedded as a function
to `Option` (a key absent from the dictionary maps to `none`). -/
def Store : Type := String → Option (List Message)

/-- `get_user_messages` (`src/backend/app.py` lines 30-34): look up the
session's conversation, inserting an empty one first when the key is absent.
Returns the conversation together with the possibly-updated store. -/
def get_user_messages (store : Store) (sid : String) : List Message × Store :=
  match store sid with
  | none => ([], fun s => if s = sid then some [] else store s)
  | some conv => (conv, store)

/-- The body of the `clear_chat` route (`src/backend/app.py` lines 77-87):
`CHAT_SESSIONS[sid] = []`. -/
def clear_chat (store : Store) (sid : String) : Store :=
  fun s => if s = sid then some [] else store s

/-- The accepted mode names of the `set_mode` route
(`src/backend/app.py` line 72). -/
def validModes : List String := ["mock", "rag", "tinyllama", "llama3_1_8b"]

/-- The JSON body `{"status": "ok", "mode": LLM_MODE}` returned by
`set_mode` (`src/backend/app.py` line 75). -/
structure ModeResponse where
  status : String
  mode : String
deriving DecidableEq, Repr

/-- The `set_mode` route (`src/backend/app.py` lines 61-75): given the
current value of the global `LLM_MODE` and the requested mode, update the
global only when the name is in `validModes`, and always answer
`{"status": "ok", "mode": LLM_MODE}` with the post-call value of the global.
Returns (new global, response). -/
def set_mode (llmMode : String) (mode : String) : String × ModeResponse :=
  let newMode := if mode ∈ validModes then mode else llmMode
  (newMode, ⟨"ok", newMode⟩)

/-- One step of the `generate` generator inside `send_message`
(`src/backend/app.py` lines 109-120): for each chunk of `llm.stream(prompt)`
the code runs `response_text += chunk; yield chunk`.  `generate chunks acc`
returns the trace of the loop: for every chunk, the pair of the yielded
fragment and the value of `response_text` right after that yield. -/
def generate : List String → String → List (String × String)
  | [], _ => []
  | c :: cs, acc => (c, acc ++ c) :: generate cs (acc ++ c)

/-- The final value of `response_text` after the loop of `generate`
(`src/backend/app.py` lines 115-117), i.e. the content stored in the
assistant message on line 119. -/
def response_text (chunks : List String) : String :=
  chunks.foldl (fun acc c => acc ++ c) ""

/-- The result of the `send_message` route: either the `{"status": "empty"}`
short-circuit, or a streamed response carrying the fragments yielded to the
client and the session conversation after the stream finished. -/
inductive SendResult where
  | empty (conv : List Message)
  | streamed (yielded : List String) (conv : List Message)
deriving DecidableEq, Repr

/-- The `send_message` route (`src/backend/app.py` lines 89-122) for one
session: `prompt = data.get("prompt", "").strip()`; if empty, return
`{"status": "empty"}` with the conversation untouched; otherwise append the
user message, drive the provider stream (`llmStream`, abstracting
`get_llm(LLM_MODE).stream`), yield every chunk while accumulating
`response_text`, then append the assistant message. -/
def send_message (rawPrompt : String) (conv : List Message)
    (llmStream : String → List String) : SendResult :=
  let prompt := pyStrip rawPrompt
  if prompt = "" then
    SendResult.empty conv
  else
    let conv1 := conv ++ [⟨"user", prompt⟩]
    let chunks := llmStream prompt
    SendResult.streamed chunks (conv1 ++ [⟨"assistant", response_text chunks⟩])

/-! Provider models.  Each provider's `stream` generator becomes a function
from the data the HTTP layer would deliver (lines or byte chunks) to the
list of yielded fragments.  `json.loads` together with
`data_json.get("choices", [])` and `choice.get("text", "")` is abstracted as
a `parse` parameter returning `none` on a `json.JSONDecodeError` and
`some texts` (the `text` field of every choice) on success.  A
`requests.RequestException` raised after the listed input was delivered is
represented by an `Option String` error parameter carrying its message. -/

/-- `STOP_SEQUENCE = "\n"` of `src/llm/llm_tinyllama.py` line 14 and
`src/llm/llm_llama3_1_8b.py` line 14. -/
def stopSequence : String := "\n"

/-- `text.split(STOP_SEQUENCE)[0]` (`src/llm/llm_tinyllama.py` line 108). -/
def truncAtStop (text : String) : String :=
  pySplitFirst text stopSequence

/-- The inner `for choice in data_json.get("choices", [])` loop of the
local-model `stream` generators (`src/llm/llm_tinyllama.py` lines 103-116,
`src/llm/llm_llama3_1_8b.py` lines 102-115): skip falsy (empty) texts; on a
text containing the stop sequence, yield its truncation and stop the whole
generator (`return`); otherwise yield the text and continue.  Returns the
yielded fragments of this line and whether the generator returned. -/
def processChoices : List String → List String × Bool
  | [] => ([], false)
  | text :: rest =>
    if text = "" then processChoices rest
    else if pyContains text stopSequence then ([truncAtStop text], true)
    else
      let p := processChoices rest
      (text :: p.1, p.2)

/-- The `for line in response.iter_lines(...)` loop of the local-model
`stream` generators (`src/llm/llm_tinyllama.py` lines 94-118,
`src/llm/llm_llama3_1_8b.py` lines 93-117): skip empty lines and the
`[DONE]` signal; on a `data: ` line, parse the JSON payload (skipping the
line on a decode error) and run the choice loop, ending the whole stream
when that loop hit the stop sequence. -/
def localModelStream (parse : String → Option (List String)) :
    List String → List String
  | [] => []
  | line :: rest =>
    if line = "" ∨ pyStrip line = "[DONE]" then localModelStream parse rest
    else if pyStartsWith line "data: " then
      match parse (String.mk (line.data.drop 6)) with
      | some texts =>
        let p := processChoices texts
        if p.2 then p.1 else p.1 ++ localModelStream parse rest
      | none => localModelStream parse rest
    else localModelStream parse rest

/-- Whether the local-model line loop executes its `return` somewhere in
`lines`, i.e. a parsed choice text containing the stop sequence is reached. -/
def localModelStops (parse : String → Option (List String)) :
    List String → Bool
  | [] => false
  | line :: rest =>
    if line = "" ∨ pyStrip line = "[DONE]" then localModelStops parse rest
    else if pyStartsWith line "data: " then
      match parse (String.mk (line.data.drop 6)) with
      | some texts =>
        if (processChoices texts).2 then true else localModelStops parse rest
      | none => localModelStops parse rest
    else localModelStops parse rest

namespace TinyLlamaLLM

/-- `TinyLlamaLLM.stream` (`src/llm/llm_tinyllama.py` lines 53-125): the
fragments yielded given the lines delivered by the TinyLlama endpoint before
the stream ended.  When a `requests.RequestException` (`err = some e`) cuts
the stream off after those lines, the generator logs the error and ends
silently: no further fragment is yielded. -/
def stream (parse : String → Option (List String)) (lines : List String)
    (err : Option String) : List String :=
  localModelStream parse lines

end TinyLlamaLLM

namespace Llama3_1_8bLLM

/-- `Llama3_1_8bLLM.stream` (`src/llm/llm_llama3_1_8b.py` lines 52-124):
identical line handling to the TinyLlama variant, and likewise silent on a
`requests.RequestException`. -/
def stream (parse : String → Option (List String)) (lines : List String)
    (err : Option String) : List String :=
  localModelStream parse lines

end Llama3_1_8bLLM

namespace MockLLM

/-- `fake_answer` of `MockLLM.stream` (`src/llm/llm_mock.py` line 11). -/
def fakeAnswer (prompt : String) : String :=
  "[Mock] You said: " ++ prompt ++ "\nThis is a mock response."

/-- `MockLLM.stream` (`src/llm/llm_mock.py` lines 8-15): split the fake
answer on whitespace and yield every token with a trailing space appended. -/
def stream (prompt : String) : List String :=
  (pySplitTokens (fakeAnswer prompt)).map (fun tok => tok ++ " ")

end MockLLM

namespace RagLLM

/-- The f-string `f"[Error fetching RAG response: {e}]"` yielded by the
`except` branch of `RagLLM.stream` (`src/llm/llm_rag.py` line 56). -/
def errorFragment (e : String) : String :=
  "[Error fetching RAG response: " ++ e ++ "]"

/-- `RagLLM.stream` (`src/llm/llm_rag.py` lines 24-61): yield every
non-empty byte chunk delivered by the RAG endpoint and, when a
`requests.RequestException` with message `e` occurs after those chunks,
yield the single diagnostic fragment before ending. -/
def stream (chunks : List String) (err : Option String) : List String :=
  chunks.filter (fun c => c ≠ "") ++
    match err with
    | none => []
    | some e => [errorFragment e]

end RagLLM

/-! Concrete scenario data.  `scenarioParse` models the external JSON
decoder (`json.loads` composed with the `choices`/`text` field accesses) on
the two payloads of the spec's local-model scenario: the JSON escape
sequence in the raw line decodes to a real newline in the text field. -/

/-- Raw JSON payload of the scenario line carrying text `"The"`. -/
def scenarioData1 : String := "\x7b\"choices\":[\x7b\"text\":\"The\"\x7d]\x7d"

/-- Raw JSON payload of the scenario line carrying text `" sky\nExtra"`
(the newline written as the two-character JSON escape in the raw line). -/
def scenarioData2 : String :=
  "\x7b\"choices\":[\x7b\"text\":\" sky\\nExtra\"\x7d]\x7d"

/-- The external JSON decoder evaluated on the scenario payloads. -/
def scenarioParse : String → Option (List String) :=
  fun s =>
    if s = scenarioData1 then some ["The"]
    else if s = scenarioData2 then some [" sky\nExtra"]
    else none

/-- The two `data: ` lines of the spec's local-model scenario. -/
def scenarioLines : List String :=
  ["data: " ++ scenarioData1, "data: " ++ scenarioData2]

/-! Helper lemmas. -/

/-- `response_text` is `String.join` of the chunk list. -/
lemma response_text_eq_join (chunks : List String) :
    response_text chunks = String.join chunks := rfl

/-- Folding string append from an accumulator prepends the accumulator. -/
lemma foldl_append_eq_join (chunks : List String) :
    ∀ acc : String,
      chunks.foldl (fun a c => a ++ c) acc = acc ++ String.join chunks := by
  induction chunks with
  | nil => intro acc; simp [String.join]
  | cons c cs ih =>
    intro acc
    show cs.foldl (fun a c => a ++ c) (acc ++ c) = acc ++ String.join (c :: cs)
    rw [ih (acc ++ c)]
    have hj : String.join (c :: cs) = c ++ String.join cs := by
      show cs.foldl (fun a c => a ++ c) ("" ++ c) = c ++ String.join cs
      rw [ih ("" ++ c), String.empty_append]
    rw [hj, String.append_assoc]

/-- `String.join` distributes over `cons`. -/
lemma string_join_cons (c : String) (cs : List String) :
    String.join (c :: cs) = c ++ String.join cs := by
  show cs.foldl (fun a c => a ++ c) ("" ++ c) = c ++ String.join cs
  rw [foldl_append_eq_join cs ("" ++ c), String.empty_append]

/-- The trace of the relay loop yields exactly the upstream chunks. -/
lemma generate_map_fst (chunks : List String) :
    ∀ acc : String, (generate chunks acc).map Prod.fst = chunks := by
  induction chunks with
  | nil => intro acc; rfl
  | cons c cs ih => intro acc; simp [generate, ih]

/-- The accumulator recorded at step `k` of the relay loop is the initial
accumulator followed by the first `k + 1` chunks. -/
lemma generate_get_snd (chunks : List String) :
    ∀ (acc : String) (k : Nat) (hk : k < (generate chunks acc).length),
      ((generate chunks acc).get ⟨k, hk⟩).2
        = acc ++ String.join (chunks.take (k + 1)) := by
  induction chunks with
  | nil => intro acc k hk; exact absurd hk (by simp [generate])
  | cons c cs ih =>
    intro acc k hk
    cases k with
    | zero =>
      show acc ++ c = acc ++ String.join [c]
      rw [string_join_cons, String.join, List.foldl_nil, String.append_empty]
    | succ k =>
      have hk' : k < (generate cs (acc ++ c)).length := by
        simpa [generate] using hk
      show ((generate cs (acc ++ c)).get ⟨k, hk'⟩).2
        = acc ++ String.join ((c :: cs).take (k + 2))
      rw [ih (acc ++ c) k hk']
      rw [List.take_succ_cons, string_join_cons, String.append_assoc]

/-- C1: once the relay generator of `send_message` is exhausted, the
accumulated `response_text` is the byte-for-byte concatenation, in arrival
order, of exactly the chunks it forwarded, and after every individual yield
the accumulator equals the concatenation of the chunks forwarded so far. -/
theorem relay_accumulator_consistency (chunks : List String) :
    ((generate chunks "").map Prod.fst = chunks)
    ∧ response_text chunks = String.join ((generate chunks "").map Prod.fst)
    ∧ ∀ (k : Nat) (hk : k < (generate chunks "").length),
        ((generate chunks "").get ⟨k, hk⟩).2
          = String.join (((generate chunks "").map Prod.fst).take (k + 1)) := by
  refine ⟨generate_map_fst chunks "", ?_, ?_⟩
  · rw [generate_map_fst chunks "", response_text_eq_join]
  · intro k hk
    rw [generate_get_snd chunks "" k hk, generate_map_fst chunks "",
      String.empty_append]

theorem relay_accumulator_consistency_witness :
    ((generate ["The ", "sky "] "").get ⟨1, by decide⟩).2
      = String.join ((((generate ["The ", "sky "] "").map Prod.fst)).take (1 + 1)) :=
  (relay_accumulator_consistency ["The ", "sky "]).2.2 1 (by decide)

/-- C9: clearing a session and immediately reading it back yields the empty
conversation, whatever the store held before. -/
theorem clear_then_get_empty (store : Store) (sid : String) :
    (get_user_messages (clear_chat store sid) sid).1 = [] := by
  simp [get_user_messages, clear_chat]

/-- C5: `set_mode` leaves the process-wide mode unchanged and reports the
previously active mode for any name outside the variant set, and updates the
shared value and reports the new value for any name inside it. -/
theorem set_mode_validation (cur mode : String) :
    (mode ∉ validModes →
      (set_mode cur mode).1 = cur ∧ (set_mode cur mode).2.mode = cur)
    ∧ (mode ∈ validModes →
      (set_mode cur mode).1 = mode ∧ (set_mode cur mode).2.mode = mode) := by
  constructor <;> intro h <;> simp [set_mode, h]

theorem set_mode_validation_witness :
    ((set_mode "mock" "bogus").1 = "mock"
      ∧ (set_mode "mock" "bogus").2.mode = "mock")
    ∧ ((set_mode "mock" "rag").1 = "rag"
      ∧ (set_mode "mock" "rag").2.mode = "rag") :=
  ⟨(set_mode_validation "mock" "bogus").1 (by decide),
   (set_mode_validation "mock" "rag").2 (by decide)⟩

/-- C10: the `set_mode` response always carries status `"ok"` together with
the mode that is active after the call, so a rejected change answers exactly
like an accepted change that ends on the same mode. -/
theorem set_mode_response_always_ok (cur mode : String) :
    (set_mode cur mode).2.status = "ok"
    ∧ (set_mode cur mode).2.mode = (set_mode cur mode).1
    ∧ (set_mode "mock" "nonsense").2 = (set_mode "mock" "mock").2 :=
  ⟨rfl, rfl, by decide⟩

/-- C6: a prompt that strips to the empty string makes `send_message` return
the `"empty"` outcome with the conversation untouched, for every provider
stream (so no provider is ever invoked). -/
theorem empty_prompt_short_circuits (rawPrompt : String) (conv : List Message)
    (h : pyStrip rawPrompt = "") (llmStream : String → List String) :
    send_message rawPrompt conv llmStream = SendResult.empty conv := by
  simp [send_message, h]

theorem empty_prompt_short_circuits_witness :
    send_message " \t " [] (fun _ => ["junk"]) = SendResult.empty [] :=
  empty_prompt_short_circuits " \t " [] (by decide) (fun _ => ["junk"])

/-- C8: on a request failure the retrieval-augmented stream yields exactly
one final diagnostic fragment carrying the error description after the
fragments already yielded; the local-model streams yield nothing extra on
the same failure. -/
theorem rag_error_diagnostic (chunks : List String) (e : String)
    (parse : String → Option (List String)) (lines : List String) :
    RagLLM.stream chunks (some e)
        = RagLLM.stream chunks none ++ [RagLLM.errorFragment e]
    ∧ RagLLM.errorFragment e = "[Error fetching RAG response: " ++ e ++ "]"
    ∧ TinyLlamaLLM.stream parse lines (some e)
        = TinyLlamaLLM.stream parse lines none
    ∧ Llama3_1_8bLLM.stream parse lines (some e)
        = Llama3_1_8bLLM.stream parse lines none :=
  ⟨by simp [RagLLM.stream], rfl, rfl, rfl⟩

/-- If no earlier choice text is empty or carries the stop marker and text
`t` carries it, the choice loop yields the earlier texts unchanged, then the
truncation of `t`, and reports that the generator returned, whatever texts
would have followed. -/
lemma processChoices_stop (pres : List String) (t : String) (post : List String)
    (hpre : ∀ s ∈ pres, s ≠ "" ∧ pyContains s stopSequence = false)
    (ht : pyContains t stopSequence = true) :
    processChoices (pres ++ t :: post) = (pres ++ [truncAtStop t], true) := by
  induction pres with
  | nil =>
    have ht' : t ≠ "" := by
      intro h
      rw [h] at ht
      exact absurd ht (by decide)
    simp [processChoices, ht', ht]
  | cons s pres ih =>
    have hs := hpre s (by simp)
    have hrec := ih (fun x hx => hpre x (by simp [hx]))
    simp [processChoices, hs.1, hs.2, hrec]

/-- Once the line loop has executed its `return`, lines delivered afterwards
do not change the yielded fragments. -/
lemma localModelStream_stops_append (parse : String → Option (List String))
    (rest : List String) :
    ∀ lines : List String, localModelStops parse lines = true →
      localModelStream parse (lines ++ rest) = localModelStream parse lines := by
  intro lines
  induction lines with
  | nil => intro h; exact absurd h (by simp [localModelStops])
  | cons line ls ih =>
    intro h
    simp only [localModelStops] at h
    simp only [List.cons_append, localModelStream]
    by_cases h1 : line = "" ∨ pyStrip line = "[DONE]"
    · simp only [if_pos h1] at h ⊢
      exact ih h
    · simp only [if_neg h1] at h ⊢
      cases hb : pyStartsWith line "data: " with
      | false =>
        simp [hb] at h ⊢
        exact ih h
      | true =>
        simp only [hb, if_true] at h ⊢
        cases hp : parse (String.mk (line.data.drop 6)) with
        | none =>
          simp only [hp] at h ⊢
          exact ih h
        | some texts =>
          simp only [hp] at h ⊢
          cases hstop : (processChoices texts).2 with
          | true => simp [hstop]
          | false =>
            simp [hstop] at h ⊢
            rw [ih h]

/-- C2: in the local-model streams, earlier stop-free non-empty chunks are
forwarded unchanged, the first chunk carrying the stop marker is forwarded
truncated at the marker's first occurrence, the stream ends there (later
chunks and later lines are never reflected in the output), and the spec's
concrete two-line JSON scenario forwards `"The"` then `" sky"` and nothing
of `"Extra"`. -/
theorem local_model_stop_truncation
    (parse : String → Option (List String))
    (pres : List String) (t : String) (post : List String)
    (lines rest : List String) :
    ((∀ s ∈ pres, s ≠ "" ∧ pyContains s stopSequence = false) →
        pyContains t stopSequence = true →
        processChoices (pres ++ t :: post) = (pres ++ [truncAtStop t], true))
    ∧ (localModelStops parse lines = true →
        localModelStream parse (lines ++ rest) = localModelStream parse lines)
    ∧ TinyLlamaLLM.stream scenarioParse scenarioLines none = ["The", " sky"]
    ∧ Llama3_1_8bLLM.stream scenarioParse scenarioLines none = ["The", " sky"] :=
  ⟨fun hpre ht => processChoices_stop pres t post hpre ht,
   fun h => localModelStream_stops_append parse rest lines h,
   by decide, by decide⟩

theorem local_model_stop_truncation_witness :
    (processChoices (["The"] ++ " sky\nExtra" :: ["Never"])
      = (["The"] ++ [truncAtStop " sky\nExtra"], true))
    ∧ (localModelStream scenarioParse (scenarioLines ++ ["data: junk"])
      = localModelStream scenarioParse scenarioLines) := by
  have h := local_model_stop_truncation scenarioParse ["The"] " sky\nExtra"
    ["Never"] scenarioLines ["data: junk"]
  exact ⟨h.1 (by decide) (by decide), h.2.1 (by decide)⟩

/-- C3 counterexample: for the raw prompt `"  hi  "` the user message that
`send_message` appends carries the stripped text `"hi"`, not the original
prompt, so the conversation's second-to-last message differs from
`{role: user, content: original prompt}`. -/
theorem send_message_strips_prompt_counterexample :
    send_message "  hi  " [] (fun _ => [])
      = SendResult.streamed [] [⟨"user", "hi"⟩, ⟨"assistant", ""⟩]
    ∧ ("hi" : String) ≠ "  hi  " := by
  exact ⟨by decide, by decide⟩

/-- C3 (amended): for every prompt that is non-empty after stripping,
`send_message` appends a user message carrying the stripped prompt before
streaming, drives the provider on the stripped prompt, and after the stream
is exhausted appends exactly one assistant message whose content is the
concatenation of the yielded fragments — the empty string when the stream
yields no fragment. -/
theorem send_message_commits_turn (rawPrompt : String) (conv : List Message)
    (llmStream : String → List String) (h : pyStrip rawPrompt ≠ "") :
    send_message rawPrompt conv llmStream
      = SendResult.streamed (llmStream (pyStrip rawPrompt))
          (conv ++ [⟨"user", pyStrip rawPrompt⟩,
            ⟨"assistant", String.join (llmStream (pyStrip rawPrompt))⟩]) := by
  simp [send_message, h, response_text_eq_join]

theorem send_message_commits_turn_witness :
    send_message "hi" [] (fun _ => [])
      = SendResult.streamed ((fun _ : String => ([] : List String)) (pyStrip "hi"))
          ([] ++ [⟨"user", pyStrip "hi"⟩,
            ⟨"assistant",
              String.join ((fun _ : String => ([] : List String)) (pyStrip "hi"))⟩]) :=
  send_message_commits_turn "hi" [] (fun _ => []) (by decide)

/-- C4 counterexample: the mock scenario's final assistant content is
`"[Mock] You said: hi This is a mock response. "` — whitespace splitting has
replaced the newline of the source string by a plain space and left a
trailing space — which differs from the content the claim states. -/
theorem mock_scenario_counterexample :
    send_message "hi" [] MockLLM.stream
      = SendResult.streamed
          ["[Mock] ", "You ", "said: ", "hi ", "This ", "is ", "a ", "mock ",
            "response. "]
          [⟨"user", "hi"⟩,
            ⟨"assistant", "[Mock] You said: hi This is a mock response. "⟩]
    ∧ ("[Mock] You said: hi This is a mock response. " : String)
        ≠ "[Mock] You said: hi\nThis is a mock response.\n" := by
  exact ⟨by decide, by decide⟩

/-- C4 (amended): the prompt `"hi"` to the mock provider forwards exactly
the nine tokens of the claim, each with a trailing space appended, and the
final conversation entry is the assistant message whose content is their
concatenation `"[Mock] You said: hi This is a mock response. "`, in which
the source string's newline is not preserved. -/
theorem mock_scenario_amended :
    send_message "hi" [] MockLLM.stream
      = SendResult.streamed
          (["[Mock]", "You", "said:", "hi", "This", "is", "a", "mock",
            "response."].map (fun tok => tok ++ " "))
          [⟨"user", "hi"⟩,
            ⟨"assistant", "[Mock] You said: hi This is a mock response. "⟩] := by
  decide

/-- JSON payload whose single choice text starts with the stop marker. -/
def leadingStopData : String :=
  "\x7b\"choices\":[\x7b\"text\":\"\\nExtra\"\x7d]\x7d"

/-- The external JSON decoder evaluated on `leadingStopData`. -/
def leadingStopParse : String → Option (List String) :=
  fun s => if s = leadingStopData then some ["\nExtra"] else none

/-- C7: on an upstream line whose choice text begins with the stop marker,
the local-model stream truncates to the empty string and yields it, so an
empty fragment is forwarded to the caller. -/
theorem local_model_yields_empty_fragment :
    TinyLlamaLLM.stream leadingStopParse ["data: " ++ leadingStopData] none
      = [""]
    ∧ "" ∈ TinyLlamaLLM.stream leadingStopParse
        ["data: " ++ leadingStopData] none := by
  exact ⟨by decide, by decide⟩
